import Mathlib

/-!
Shallow embedding of the physics-worker integrator of this repository.

The repository ships two versions of the web-worker integrator:
* `src/unnamed/part_000` — the asteroid-belt variant: per-body force
  accumulator, Sun gravity plus a short-range repulsion term, and a
  velocity-first (semi-implicit Euler) integration step;
* `src/unnamed/part_001` — the basic planet variant: no repulsion, and the
  position is updated first (from the pre-step velocity), then the velocity.

Both files carry the identical `vec3` helper object and the identical
constant `G = 0.1`; these are defined once below and shared.

Numbers: JavaScript numbers are IEEE-754 doubles.  The model `JsNum` keeps
an exact rational for every finite value and represents the special values
`Infinity`, `-Infinity` and `NaN` explicitly, with the IEEE rules for how
they propagate through `+`, `-`, `*`, `/`, `Math.max`, `Math.sqrt`, `<` and
truthiness.  Finite arithmetic is exact (no rounding or overflow), and the
single zero of `ℚ` plays the role of `+0` (the worker never produces a
`-0` along the paths studied here).  `Math.sqrt` of a finite nonnegative
value is modelled by the exact rational square root; the model is exact
precisely on rationals whose numerator and denominator are perfect squares,
which covers every input at which a theorem below evaluates it, and
elsewhere returns the floor-square-root approximation `⌊√num⌋/⌊√den⌋`
(no theorem depends on its value there).
-/

/-- Scan downwards from `r`: the largest `k ≤ r` with `k * k ≤ n`.
Written by structural recursion so that the kernel can evaluate it inside
`decide`. -/
def sqrtScan : Nat → Nat → Nat
  | 0, _ => 0
  | r + 1, n => if (r + 1) * (r + 1) ≤ n then r + 1 else sqrtScan r n

/-- Floor of the square root of a natural number (kernel-evaluable). -/
def natFloorSqrt (n : Nat) : Nat := sqrtScan n n

/-- Rational stand-in for the positive branch of `Math.sqrt`: exact on
rationals whose numerator and denominator are perfect squares (the only
points at which the development evaluates it). -/
def ratSqrt (q : ℚ) : ℚ :=
  (natFloorSqrt q.num.toNat : ℚ) / (natFloorSqrt q.den : ℚ)

/-- Model of a JavaScript number: an exact rational for the finite values,
plus the IEEE special values. -/
inductive JsNum : Type where
  | fin (q : ℚ)
  | inf
  | ninf
  | nan
deriving DecidableEq

namespace JsNum

/-- Numeric literals denote the corresponding finite rational. -/
instance (n : Nat) : OfNat JsNum n := ⟨.fin (OfNat.ofNat n)⟩

/-- IEEE negation. -/
def neg : JsNum → JsNum
  | .fin q => .fin (-q)
  | .inf => .ninf
  | .ninf => .inf
  | .nan => .nan

/-- IEEE addition (exact on finite values). -/
def add : JsNum → JsNum → JsNum
  | .nan, _ => .nan
  | _, .nan => .nan
  | .inf, .ninf => .nan
  | .ninf, .inf => .nan
  | .inf, _ => .inf
  | _, .inf => .inf
  | .ninf, _ => .ninf
  | _, .ninf => .ninf
  | .fin p, .fin q => .fin (p + q)

/-- IEEE subtraction, which agrees with adding the negation. -/
def sub (a b : JsNum) : JsNum := add a (neg b)

/-- IEEE multiplication (exact on finite values); `0 * ±∞ = NaN`. -/
def mul : JsNum → JsNum → JsNum
  | .nan, _ => .nan
  | _, .nan => .nan
  | .fin p, .fin q => .fin (p * q)
  | .fin p, .inf => if 0 < p then .inf else if p < 0 then .ninf else .nan
  | .fin p, .ninf => if 0 < p then .ninf else if p < 0 then .inf else .nan
  | .inf, .fin q => if 0 < q then .inf else if q < 0 then .ninf else .nan
  | .ninf, .fin q => if 0 < q then .ninf else if q < 0 then .inf else .nan
  | .inf, .inf => .inf
  | .inf, .ninf => .ninf
  | .ninf, .inf => .ninf
  | .ninf, .ninf => .inf

/-- IEEE division (exact on finite values); division of a nonzero finite
value by zero gives a signed infinity (the model's zero is `+0`), `0/0`,
`∞/∞` give `NaN`. -/
def div : JsNum → JsNum → JsNum
  | .nan, _ => .nan
  | _, .nan => .nan
  | .fin p, .fin q =>
      if q = 0 then (if 0 < p then .inf else if p < 0 then .ninf else .nan)
      else .fin (p / q)
  | .fin _, .inf => .fin 0
  | .fin _, .ninf => .fin 0
  | .inf, .fin q => if q < 0 then .ninf else .inf
  | .ninf, .fin q => if q < 0 then .inf else .ninf
  | .inf, .inf => .nan
  | .inf, .ninf => .nan
  | .ninf, .inf => .nan
  | .ninf, .ninf => .nan

/-- The JavaScript `<` comparison: any comparison involving `NaN` is false. -/
def lt : JsNum → JsNum → Bool
  | .nan, _ => false
  | _, .nan => false
  | .fin p, .fin q => decide (p < q)
  | .fin _, .inf => true
  | .fin _, .ninf => false
  | .inf, _ => false
  | .ninf, .ninf => false
  | .ninf, _ => true

/-- `Math.max`: `NaN` if either argument is `NaN`, otherwise the larger. -/
def max (a b : JsNum) : JsNum :=
  match a, b with
  | .nan, _ => .nan
  | _, .nan => .nan
  | x, y => if lt x y then y else x

/-- `Math.sqrt`: `NaN` on `NaN` and on negative inputs, `∞` on `∞`, and the
(model) rational square root on finite nonnegative inputs. -/
def sqrt : JsNum → JsNum
  | .nan => .nan
  | .ninf => .nan
  | .inf => .inf
  | .fin q => if q < 0 then .nan else .fin (ratSqrt q)

/-- JavaScript truthiness of a number: `0` and `NaN` are falsy. -/
def truthy : JsNum → Bool
  | .fin q => decide (q ≠ 0)
  | .nan => false
  | _ => true

instance : Neg JsNum := ⟨neg⟩
instance : Add JsNum := ⟨add⟩
instance : Sub JsNum := ⟨sub⟩
instance : Mul JsNum := ⟨mul⟩
instance : Div JsNum := ⟨div⟩

end JsNum

/-- A 3-component vector of JavaScript numbers, `{x, y, z}`. -/
structure Vec3 where
  x : JsNum
  y : JsNum
  z : JsNum
deriving DecidableEq

/-! Vector helpers, shared verbatim by both worker files (`const vec3 = …`). -/
namespace vec3

/-- `create: (x = 0, y = 0, z = 0) => ({ x, y, z })`. -/
def create (x : JsNum := 0) (y : JsNum := 0) (z : JsNum := 0) : Vec3 :=
  ⟨x, y, z⟩

/-- `subtract: (a, b) => ({ x: a.x - b.x, y: a.y - b.y, z: a.z - b.z })`. -/
def subtract (a b : Vec3) : Vec3 := ⟨a.x - b.x, a.y - b.y, a.z - b.z⟩

/-- `add: (a, b) => ({ x: a.x + b.x, y: a.y + b.y, z: a.z + b.z })`. -/
def add (a b : Vec3) : Vec3 := ⟨a.x + b.x, a.y + b.y, a.z + b.z⟩

/-- `scale: (v, s) => ({ x: v.x * s, y: v.y * s, z: v.z * s })`. -/
def scale (v : Vec3) (s : JsNum) : Vec3 := ⟨v.x * s, v.y * s, v.z * s⟩

/-- `lengthSq: (v) => v.x * v.x + v.y * v.y + v.z * v.z`. -/
def lengthSq (v : Vec3) : JsNum := v.x * v.x + v.y * v.y + v.z * v.z

/-- `length: (v) => Math.sqrt(vec3.lengthSq(v))`. -/
def length (v : Vec3) : JsNum := JsNum.sqrt (lengthSq v)

/-- `normalize: (v) => len > 0 ? scale(v, 1 / len) : create()`. -/
def normalize (v : Vec3) : Vec3 :=
  let len := length v
  if JsNum.lt 0 len then scale v ((1 : JsNum) / len) else create

end vec3

/-- Gravitational constant `G = 0.1`, identical in both worker files. -/
def G : JsNum := .fin 0.1

/-- The attractor, as the driver sends it:
`{ id: 'sun', mass, position, velocity }`. -/
structure Sun where
  id : String
  mass : JsNum
  position : Vec3
  velocity : Vec3
deriving DecidableEq

/-- One entry of the `update` response: `{ id, position, velocity }`. -/
structure UpdateEntry where
  id : String
  position : Vec3
  velocity : Vec3
deriving DecidableEq

/-! ## The asteroid-belt variant (`src/unnamed/part_000`) -/

namespace W0

/-- A movable body as the asteroid-belt worker holds it:
`{ id, mass, position, velocity }` plus the transient `force` the worker
attaches at init time. -/
structure Body where
  id : String
  mass : JsNum
  position : Vec3
  velocity : Vec3
  force : Vec3
deriving DecidableEq

/-- The worker's module-level state: `let bodies = []; let sun = null`. -/
structure State where
  bodies : List Body
  sun : Option Sun
deriving DecidableEq

/-- The state before any message: empty body list, no sun. -/
def initialState : State := ⟨[], none⟩

/-- `const SUN_REPULSION_DISTANCE_SQ = 1.5 * 1.5`. -/
def SUN_REPULSION_DISTANCE_SQ : JsNum := .fin (1.5 * 1.5)

/-- `const SUN_REPULSION_STRENGTH = 0.05`. -/
def SUN_REPULSION_STRENGTH : JsNum := .fin 0.05

/-- Step 1 of the tick: `body.force = vec3.create()`. -/
def resetForce (b : Body) : Body := { b with force := vec3.create }

/-- Step 2 of the tick, for one body: the Sun's gravity on the body plus the
short-range repulsion when the (un-floored) squared distance is below the
threshold, accumulated into `body.force`. -/
def accumulate (sun : Sun) (body : Body) : Body :=
  let toSun := vec3.subtract sun.position body.position
  let distSq := vec3.lengthSq toSun
  let safeDistSq := JsNum.max distSq (.fin 0.1)
  let gravForceMag := G * sun.mass * body.mass / safeDistSq
  let gravForceDir := vec3.normalize toSun
  let body1 := { body with force := vec3.add body.force (vec3.scale gravForceDir gravForceMag) }
  if JsNum.lt distSq SUN_REPULSION_DISTANCE_SQ then
    let repulsionMag := SUN_REPULSION_STRENGTH * body.mass * (SUN_REPULSION_DISTANCE_SQ / distSq)
    { body1 with force := vec3.add body1.force (vec3.scale gravForceDir (JsNum.neg repulsionMag)) }
  else
    body1

/-- Step 3 of the tick, for one body: velocity from the accumulated force,
then position from the just-updated velocity. -/
def integrate (dt : JsNum) (body : Body) : Body :=
  let acceleration := vec3.scale body.force ((1 : JsNum) / body.mass)
  let velocity := vec3.add body.velocity (vec3.scale acceleration dt)
  let position := vec3.add body.position (vec3.scale velocity dt)
  { body with velocity := velocity, position := position }

/-- The two message shapes the worker handles: `init` with
`{ bodies, sun }` and `tick` with `{ dt }`. -/
inductive Msg : Type where
  | init (bodies : List Body) (sun : Option Sun)
  | tick (dt : JsNum)

/-- The worker's `self.onmessage` handler: the new module state together
with the payload of the `update` message it posts, if any.  The `init`
branch stores the payload unconditionally and zeroes each body's force
accumulator; the `tick` branch returns early when the sun is unset, the
body list is empty, or `dt` is falsy, and otherwise resets forces,
accumulates the Sun's force on every body, integrates every body, and posts
`{ id, position, velocity }` per body. -/
def onmessage : State → Msg → State × Option (List UpdateEntry)
  | _, .init bs sn =>
      ({ bodies := bs.map (fun b => { b with force := vec3.create }), sun := sn }, none)
  | s, .tick dt =>
      match s.sun with
      | none => (s, none)
      | some sun =>
          if s.bodies.isEmpty || !(JsNum.truthy dt) then (s, none)
          else
            let bodies1 := s.bodies.map resetForce
            let bodies2 := bodies1.map (accumulate sun)
            let bodies3 := bodies2.map (integrate dt)
            ({ s with bodies := bodies3 },
             some (bodies3.map (fun b => ⟨b.id, b.position, b.velocity⟩)))

/-- Fold a sequence of tick messages over the state, discarding outputs. -/
def runTicks (s : State) : List JsNum → State
  | [] => s
  | dt :: rest => runTicks (onmessage s (.tick dt)).1 rest

end W0

/-! ## The basic planet variant (`src/unnamed/part_001`) -/

namespace W1

/-- A movable body as the basic worker holds it (no force accumulator). -/
structure Body where
  id : String
  mass : JsNum
  position : Vec3
  velocity : Vec3
deriving DecidableEq

/-- The worker's module-level state: `let bodies = []; let sun = null`. -/
structure State where
  bodies : List Body
  sun : Option Sun
deriving DecidableEq

/-- The state before any message: empty body list, no sun. -/
def initialState : State := ⟨[], none⟩

/-- First pass of the tick: `body.position = add(position, scale(velocity, dt))`
— the position moves by the PRE-step velocity. -/
def moveBody (dt : JsNum) (body : Body) : Body :=
  { body with position := vec3.add body.position (vec3.scale body.velocity dt) }

/-- Second pass of the tick: the Sun's force at the already-moved position,
acceleration, and the velocity update. -/
def applyGravity (sun : Sun) (dt : JsNum) (body : Body) : Body :=
  let toSun := vec3.subtract sun.position body.position
  let distSq := JsNum.max (vec3.lengthSq toSun) (.fin 0.1)
  let forceMag := G * sun.mass * body.mass / distSq
  let forceDir := vec3.normalize toSun
  let force := vec3.scale forceDir forceMag
  let acceleration := vec3.scale force ((1 : JsNum) / body.mass)
  { body with velocity := vec3.add body.velocity (vec3.scale acceleration dt) }

/-- The two message shapes: `init` with `{ planets, sun }` and `tick`. -/
inductive Msg : Type where
  | init (planets : List Body) (sun : Option Sun)
  | tick (dt : JsNum)

/-- The worker's `self.onmessage` handler: stores the payload on `init`;
on `tick` (unless the guard trips) moves every body by its current velocity,
then updates every velocity from the force at the new position, and posts
`{ id, position, velocity }` per body. -/
def onmessage : State → Msg → State × Option (List UpdateEntry)
  | _, .init ps sn => ({ bodies := ps, sun := sn }, none)
  | s, .tick dt =>
      match s.sun with
      | none => (s, none)
      | some sun =>
          if s.bodies.isEmpty || !(JsNum.truthy dt) then (s, none)
          else
            let bodies1 := s.bodies.map (moveBody dt)
            let bodies2 := bodies1.map (applyGravity sun dt)
            ({ s with bodies := bodies2 },
             some (bodies2.map (fun b => ⟨b.id, b.position, b.velocity⟩)))

/-- Fold a sequence of tick messages over the state, discarding outputs. -/
def runTicks (s : State) : List JsNum → State
  | [] => s
  | dt :: rest => runTicks (onmessage s (.tick dt)).1 rest

end W1

/-- A run of the asteroid-belt worker: from state `s`, delivering the listed
messages produces the listed outputs (one per message) and ends in the final
state.  This is the observable behaviour of a sequence of `postMessage`
deliveries. -/
inductive W0.Reaches : W0.State → List W0.Msg → List (Option (List UpdateEntry)) → W0.State → Prop where
  | done (s : W0.State) : W0.Reaches s [] [] s
  | step {s s' t : W0.State} {m : W0.Msg} {ms : List W0.Msg}
      {o : Option (List UpdateEntry)} {os : List (Option (List UpdateEntry))} :
      W0.onmessage s m = (s', o) → W0.Reaches s' ms os t → W0.Reaches s (m :: ms) (o :: os) t

/-- A run of the basic planet worker, as `W0.Reaches`. -/
inductive W1.Reaches : W1.State → List W1.Msg → List (Option (List UpdateEntry)) → W1.State → Prop where
  | done (s : W1.State) : W1.Reaches s [] [] s
  | step {s s' t : W1.State} {m : W1.Msg} {ms : List W1.Msg}
      {o : Option (List UpdateEntry)} {os : List (Option (List UpdateEntry))} :
      W1.onmessage s m = (s', o) → W1.Reaches s' ms os t → W1.Reaches s (m :: ms) (o :: os) t

/-! ## Concrete inputs used by the theorems

The spec's concrete scenario (`{id:"p", mass:1, position:(5,0,0),
velocity:(0,0,-1)}` under `sun:{mass:1000, position:(0,0,0)}`), and a few
further concrete bodies exercising the edge cases. -/

/-- The body of the spec's concrete scenario. -/
def scenarioBody : W0.Body :=
  { id := "p", mass := 1, position := ⟨.fin 5, 0, 0⟩, velocity := ⟨0, 0, .fin (-1)⟩,
    force := vec3.create }

/-- The attractor of the spec's concrete scenario, shaped as the driver
(`scene.js`) sends it. -/
def scenarioSun : Sun :=
  { id := "sun", mass := .fin 1000, position := ⟨0, 0, 0⟩, velocity := ⟨0, 0, 0⟩ }

/-- The asteroid-belt worker's state right after `init` with the scenario
body and sun. -/
def scenarioState : W0.State := { bodies := [scenarioBody], sun := some scenarioSun }

/-- The scenario body after one `tick` with `dt = 0.1`. -/
def tickedBody : W0.Body :=
  { id := "p", mass := 1, position := ⟨.fin 4.96, 0, .fin (-0.1)⟩,
    velocity := ⟨.fin (-0.4), 0, .fin (-1)⟩, force := ⟨.fin (-4), 0, 0⟩ }

/-- The scenario state after one `tick` with `dt = 0.1`. -/
def tickedState : W0.State := { bodies := [tickedBody], sun := some scenarioSun }

/-- The `update` payload the scenario tick posts. -/
def tickedUpdate : List UpdateEntry :=
  [⟨"p", ⟨.fin 4.96, 0, .fin (-0.1)⟩, ⟨.fin (-0.4), 0, .fin (-1)⟩⟩]

/-- A body at rest at `(5,0,0)`, for the basic planet worker. -/
def restBody : W1.Body :=
  { id := "q", mass := 1, position := ⟨.fin 5, 0, 0⟩, velocity := ⟨0, 0, 0⟩ }

/-- Basic-worker state holding `restBody` under the scenario sun. -/
def w1RestState : W1.State := { bodies := [restBody], sun := some scenarioSun }

/-- `restBody` after one basic-worker `tick` with `dt = 0.1`: the position
has not moved (the position update used the pre-step velocity, zero), and
the velocity picked up the Sun's pull. -/
def w1TickedBody : W1.Body :=
  { id := "q", mass := 1, position := ⟨.fin 5, 0, 0⟩, velocity := ⟨.fin (-0.4), 0, 0⟩ }

/-- Basic-worker state after that tick. -/
def w1TickedState : W1.State := { bodies := [w1TickedBody], sun := some scenarioSun }

/-- The `update` payload the basic-worker tick posts. -/
def w1TickedUpdate : List UpdateEntry :=
  [⟨"q", ⟨.fin 5, 0, 0⟩, ⟨.fin (-0.4), 0, 0⟩⟩]

/-- A body exactly at the attractor's position. -/
def coincidentBody : W0.Body :=
  { id := "a", mass := 1, position := ⟨0, 0, 0⟩, velocity := ⟨0, 0, 0⟩, force := vec3.create }

/-- State holding `coincidentBody` under the scenario sun. -/
def coincidentState : W0.State := { bodies := [coincidentBody], sun := some scenarioSun }

/-- A body at `(0.2, 0, 0)`: its true squared distance `0.04` lies below
both the repulsion threshold `2.25` and the distance floor `0.1`. -/
def closeBody : W0.Body :=
  { id := "c", mass := 1, position := ⟨.fin 0.2, 0, 0⟩, velocity := ⟨0, 0, 0⟩,
    force := vec3.create }

/-- A body at unit distance from the attractor (inside the repulsion
threshold, above the floor). -/
def unitBody : W0.Body :=
  { id := "u", mass := 1, position := ⟨.fin 1, 0, 0⟩, velocity := ⟨0, 0, 0⟩,
    force := vec3.create }

/-- A body with zero mass (malformed per the spec's invariant `mass > 0`). -/
def masslessBody : W0.Body :=
  { id := "m", mass := 0, position := ⟨.fin 5, 0, 0⟩, velocity := ⟨0, 0, 0⟩,
    force := vec3.create }

/-! ## Helper lemmas -/

namespace W0

theorem accumulate_position (sun : Sun) (b : Body) : (accumulate sun b).position = b.position := by
  unfold accumulate; dsimp only; split <;> rfl

theorem accumulate_id (sun : Sun) (b : Body) : (accumulate sun b).id = b.id := by
  unfold accumulate; dsimp only; split <;> rfl

theorem accumulate_mass (sun : Sun) (b : Body) : (accumulate sun b).mass = b.mass := by
  unfold accumulate; dsimp only; split <;> rfl

theorem tick_body_id (sun : Sun) (dt : JsNum) (b : Body) :
    (integrate dt (accumulate sun (resetForce b))).id = b.id := by
  rw [show (integrate dt (accumulate sun (resetForce b))).id
        = (accumulate sun (resetForce b)).id from rfl, accumulate_id]
  rfl

theorem tick_body_mass (sun : Sun) (dt : JsNum) (b : Body) :
    (integrate dt (accumulate sun (resetForce b))).mass = b.mass := by
  rw [show (integrate dt (accumulate sun (resetForce b))).mass
        = (accumulate sun (resetForce b)).mass from rfl, accumulate_mass]
  rfl

theorem tick_ids (s : State) (dt : JsNum) :
    (onmessage s (.tick dt)).1.bodies.map Body.id = s.bodies.map Body.id := by
  obtain ⟨bodies, sun⟩ := s
  cases sun with
  | none => rfl
  | some sun =>
    show (if bodies.isEmpty || !(JsNum.truthy dt) then _
          else _ : State × Option (List UpdateEntry)).1.bodies.map Body.id = _
    split
    · rfl
    · simp only [List.map_map]
      apply List.map_congr_left
      intro b _
      simpa using tick_body_id sun dt b

theorem tick_masses (s : State) (dt : JsNum) :
    (onmessage s (.tick dt)).1.bodies.map Body.mass = s.bodies.map Body.mass := by
  obtain ⟨bodies, sun⟩ := s
  cases sun with
  | none => rfl
  | some sun =>
    show (if bodies.isEmpty || !(JsNum.truthy dt) then _
          else _ : State × Option (List UpdateEntry)).1.bodies.map Body.mass = _
    split
    · rfl
    · simp only [List.map_map]
      apply List.map_congr_left
      intro b _
      simpa using tick_body_mass sun dt b

theorem tick_sun (s : State) (dt : JsNum) :
    (onmessage s (.tick dt)).1.sun = s.sun := by
  obtain ⟨bodies, sun⟩ := s
  cases sun with
  | none => rfl
  | some sun =>
    show (if bodies.isEmpty || !(JsNum.truthy dt) then _
          else _ : State × Option (List UpdateEntry)).1.sun = _
    split <;> rfl

theorem runTicks_ids (s : State) (dts : List JsNum) :
    (runTicks s dts).bodies.map Body.id = s.bodies.map Body.id := by
  induction dts generalizing s with
  | nil => rfl
  | cons dt rest ih => rw [runTicks, ih, tick_ids]

theorem tick_update_ids (s : State) (dt : JsNum) (u : List UpdateEntry)
    (h : (onmessage s (.tick dt)).2 = some u) :
    u.map UpdateEntry.id = s.bodies.map Body.id := by
  obtain ⟨bodies, sun⟩ := s
  cases sun with
  | none => cases h
  | some sun =>
    revert h
    show (if bodies.isEmpty || !(JsNum.truthy dt) then _
          else _ : State × Option (List UpdateEntry)).2 = some u → _
    split
    · intro h; cases h
    · intro h
      rw [Option.some.injEq] at h
      subst h
      simp only [List.map_map]
      apply List.map_congr_left
      intro b _
      simpa using tick_body_id sun dt b

theorem reaches_det {s : State} {ms : List Msg} {os1 os2 : List (Option (List UpdateEntry))}
    {t1 t2 : State} (h1 : Reaches s ms os1 t1) (h2 : Reaches s ms os2 t2) :
    os1 = os2 ∧ t1 = t2 := by
  induction h1 generalizing os2 t2 with
  | done s => cases h2 with | done => exact ⟨rfl, rfl⟩
  | step e r ih =>
    cases h2 with
    | step e2 r2 =>
      rw [e] at e2
      injection e2 with hs ho
      subst hs
      obtain ⟨h3, h4⟩ := ih r2
      exact ⟨by rw [ho, h3], h4⟩

end W0

namespace W1

theorem tick_body_id_p1 (sun : Sun) (dt : JsNum) (b : Body) :
    (applyGravity sun dt (moveBody dt b)).id = b.id := rfl

theorem tick_body_mass_p1 (sun : Sun) (dt : JsNum) (b : Body) :
    (applyGravity sun dt (moveBody dt b)).mass = b.mass := rfl

theorem tick_ids_p1 (s : State) (dt : JsNum) :
    (onmessage s (.tick dt)).1.bodies.map Body.id = s.bodies.map Body.id := by
  obtain ⟨bodies, sun⟩ := s
  cases sun with
  | none => rfl
  | some sun =>
    show (if bodies.isEmpty || !(JsNum.truthy dt) then _
          else _ : State × Option (List UpdateEntry)).1.bodies.map Body.id = _
    split
    · rfl
    · simp only [List.map_map]
      rfl

theorem tick_masses_p1 (s : State) (dt : JsNum) :
    (onmessage s (.tick dt)).1.bodies.map Body.mass = s.bodies.map Body.mass := by
  obtain ⟨bodies, sun⟩ := s
  cases sun with
  | none => rfl
  | some sun =>
    show (if bodies.isEmpty || !(JsNum.truthy dt) then _
          else _ : State × Option (List UpdateEntry)).1.bodies.map Body.mass = _
    split
    · rfl
    · simp only [List.map_map]
      rfl

theorem tick_sun_p1 (s : State) (dt : JsNum) :
    (onmessage s (.tick dt)).1.sun = s.sun := by
  obtain ⟨bodies, sun⟩ := s
  cases sun with
  | none => rfl
  | some sun =>
    show (if bodies.isEmpty || !(JsNum.truthy dt) then _
          else _ : State × Option (List UpdateEntry)).1.sun = _
    split <;> rfl

theorem runTicks_ids_p1 (s : State) (dts : List JsNum) :
    (runTicks s dts).bodies.map Body.id = s.bodies.map Body.id := by
  induction dts generalizing s with
  | nil => rfl
  | cons dt rest ih => rw [runTicks, ih, tick_ids_p1]

theorem tick_update_ids_p1 (s : State) (dt : JsNum) (u : List UpdateEntry)
    (h : (onmessage s (.tick dt)).2 = some u) :
    u.map UpdateEntry.id = s.bodies.map Body.id := by
  obtain ⟨bodies, sun⟩ := s
  cases sun with
  | none => cases h
  | some sun =>
    revert h
    show (if bodies.isEmpty || !(JsNum.truthy dt) then _
          else _ : State × Option (List UpdateEntry)).2 = some u → _
    split
    · intro h; cases h
    · intro h
      rw [Option.some.injEq] at h
      subst h
      simp only [List.map_map]
      rfl

theorem reaches_det_p1 {s : State} {ms : List Msg} {os1 os2 : List (Option (List UpdateEntry))}
    {t1 t2 : State} (h1 : Reaches s ms os1 t1) (h2 : Reaches s ms os2 t2) :
    os1 = os2 ∧ t1 = t2 := by
  induction h1 generalizing os2 t2 with
  | done s => cases h2 with | done => exact ⟨rfl, rfl⟩
  | step e r ih =>
    cases h2 with
    | step e2 r2 =>
      rw [e] at e2
      injection e2 with hs ho
      subst hs
      obtain ⟨h3, h4⟩ := ih r2
      exact ⟨by rw [ho, h3], h4⟩

end W1

namespace W0

theorem integrate_position_eq (dt : JsNum) (b : Body) :
    (integrate dt b).position = vec3.add b.position (vec3.scale (integrate dt b).velocity dt) := rfl

theorem integrate_force (dt : JsNum) (b : Body) : (integrate dt b).force = b.force := rfl

theorem integrate_velocity_eq (dt : JsNum) (b : Body) :
    (integrate dt b).velocity
      = vec3.add b.velocity (vec3.scale (vec3.scale b.force ((1 : JsNum) / b.mass)) dt) := rfl

theorem accumulate_velocity (sun : Sun) (b : Body) : (accumulate sun b).velocity = b.velocity := by
  unfold accumulate; dsimp only; split <;> rfl

theorem tick_nosun (bodies : List Body) (dt : JsNum) :
    onmessage ⟨bodies, none⟩ (.tick dt) = (⟨bodies, none⟩, none) := rfl

theorem tick_guard (bodies : List Body) (sun : Sun) (dt : JsNum)
    (h : (bodies.isEmpty || !(JsNum.truthy dt)) = true) :
    onmessage ⟨bodies, some sun⟩ (.tick dt) = (⟨bodies, some sun⟩, none) := by
  show (if bodies.isEmpty || !(JsNum.truthy dt) then _
        else _ : State × Option (List UpdateEntry)) = _
  rw [h]
  rfl

theorem tick_run (bodies : List Body) (sun : Sun) (dt : JsNum)
    (h : (bodies.isEmpty || !(JsNum.truthy dt)) = false) :
    onmessage ⟨bodies, some sun⟩ (.tick dt)
      = (⟨((bodies.map resetForce).map (accumulate sun)).map (integrate dt), some sun⟩,
         some ((((bodies.map resetForce).map (accumulate sun)).map (integrate dt)).map
            fun b => ⟨b.id, b.position, b.velocity⟩)) := by
  show (if bodies.isEmpty || !(JsNum.truthy dt) then _
        else _ : State × Option (List UpdateEntry)) = _
  rw [h]
  rfl

end W0

namespace W1

theorem tick_nosun_p1 (bodies : List Body) (dt : JsNum) :
    onmessage ⟨bodies, none⟩ (.tick dt) = (⟨bodies, none⟩, none) := rfl

theorem tick_guard_p1 (bodies : List Body) (sun : Sun) (dt : JsNum)
    (h : (bodies.isEmpty || !(JsNum.truthy dt)) = true) :
    onmessage ⟨bodies, some sun⟩ (.tick dt) = (⟨bodies, some sun⟩, none) := by
  show (if bodies.isEmpty || !(JsNum.truthy dt) then _
        else _ : State × Option (List UpdateEntry)) = _
  rw [h]
  rfl

theorem tick_run_p1 (bodies : List Body) (sun : Sun) (dt : JsNum)
    (h : (bodies.isEmpty || !(JsNum.truthy dt)) = false) :
    onmessage ⟨bodies, some sun⟩ (.tick dt)
      = (⟨(bodies.map (moveBody dt)).map (applyGravity sun dt), some sun⟩,
         some (((bodies.map (moveBody dt)).map (applyGravity sun dt)).map
            fun b => ⟨b.id, b.position, b.velocity⟩)) := by
  show (if bodies.isEmpty || !(JsNum.truthy dt) then _
        else _ : State × Option (List UpdateEntry)) = _
  rw [h]
  rfl

end W1

set_option maxRecDepth 4000 in
/-- Claim C1 (confirmed).  The spec's concrete scenario, run on the
asteroid-belt worker: after `init` with body `p` (mass 1, position (5,0,0),
velocity (0,0,-1)) and sun (mass 1000, origin), a single tick with
`dt = 0.1` computes `distSq = 25`, `gravityMagnitude = 4`,
`direction = (-1,0,0)`, `acceleration = (-4,0,0)`, new velocity
`(-0.4, 0, -1)` and new position `(4.96, 0, -0.1)`, and posts exactly that
update. -/
theorem c1_concrete_scenario :
    vec3.lengthSq (vec3.subtract scenarioSun.position scenarioBody.position) = .fin 25
    ∧ G * scenarioSun.mass * scenarioBody.mass
        / JsNum.max (vec3.lengthSq (vec3.subtract scenarioSun.position scenarioBody.position)) (.fin 0.1)
        = .fin 4
    ∧ vec3.normalize (vec3.subtract scenarioSun.position scenarioBody.position) = ⟨.fin (-1), 0, 0⟩
    ∧ vec3.scale (W0.accumulate scenarioSun (W0.resetForce scenarioBody)).force
        ((1 : JsNum) / scenarioBody.mass) = ⟨.fin (-4), 0, 0⟩
    ∧ W0.onmessage scenarioState (.tick (.fin 0.1)) = (tickedState, some tickedUpdate) := by
  with_unfolding_all decide

/-- Claim C2, amended.  In the asteroid-belt variant (`part_000`) every
accepted tick is a semi-implicit Euler step: each body's new velocity is the
old velocity plus `(force / mass) * dt` for the freshly accumulated force,
and the new position is the old position plus the JUST-UPDATED velocity
times `dt`.  In the basic planet variant (`part_001`), however, the new
position is the old position plus the PRE-step velocity times `dt` (the
position pass runs before the velocity pass).  Old and new bodies are
paired positionally (`List.zipWith`) over the state before and after the
tick. -/
theorem c2_integration_order (s : W0.State) (t : W1.State) (dt : JsNum)
    (h0 : ((W0.onmessage s (.tick dt)).2).isSome = true)
    (h1 : ((W1.onmessage t (.tick dt)).2).isSome = true) :
    (W0.onmessage s (.tick dt)).1.bodies.map W0.Body.position
      = List.zipWith (fun old new => vec3.add old.position (vec3.scale new.velocity dt))
          s.bodies (W0.onmessage s (.tick dt)).1.bodies
    ∧ (W0.onmessage s (.tick dt)).1.bodies.map W0.Body.velocity
      = List.zipWith (fun old new =>
            vec3.add old.velocity (vec3.scale (vec3.scale new.force ((1 : JsNum) / old.mass)) dt))
          s.bodies (W0.onmessage s (.tick dt)).1.bodies
    ∧ (W1.onmessage t (.tick dt)).1.bodies.map W1.Body.position
      = t.bodies.map (fun old => vec3.add old.position (vec3.scale old.velocity dt)) := by
  refine ⟨?_, ?_, ?_⟩
  · obtain ⟨bodies, sun⟩ := s
    cases sun with
    | none => rw [W0.tick_nosun] at h0; simp at h0
    | some sun =>
      cases hg : (bodies.isEmpty || !(JsNum.truthy dt)) with
      | true => rw [W0.tick_guard bodies sun dt hg] at h0; simp at h0
      | false =>
        rw [W0.tick_run bodies sun dt hg]
        simp only [List.map_map]
        rw [List.zipWith_map_right, List.zipWith_same]
        apply List.map_congr_left
        intro b _
        simp only [Function.comp_apply]
        rw [W0.integrate_position_eq, W0.accumulate_position]
        rfl
  · obtain ⟨bodies, sun⟩ := s
    cases sun with
    | none => rw [W0.tick_nosun] at h0; simp at h0
    | some sun =>
      cases hg : (bodies.isEmpty || !(JsNum.truthy dt)) with
      | true => rw [W0.tick_guard bodies sun dt hg] at h0; simp at h0
      | false =>
        rw [W0.tick_run bodies sun dt hg]
        simp only [List.map_map]
        rw [List.zipWith_map_right, List.zipWith_same]
        apply List.map_congr_left
        intro b _
        simp only [Function.comp_apply]
        rw [W0.integrate_velocity_eq, W0.integrate_force, W0.accumulate_velocity,
            W0.accumulate_mass]
        rfl
  · obtain ⟨bodies, sun⟩ := t
    cases sun with
    | none => rw [W1.tick_nosun_p1] at h1; simp at h1
    | some sun =>
      cases hg : (bodies.isEmpty || !(JsNum.truthy dt)) with
      | true => rw [W1.tick_guard_p1 bodies sun dt hg] at h1; simp at h1
      | false =>
        rw [W1.tick_run_p1 bodies sun dt hg]
        simp only [List.map_map]
        apply List.map_congr_left
        intro b _
        rfl

set_option maxRecDepth 4000 in
/-- Counterexample to claim C2 as stated.  In the basic planet variant
(`part_001`), a tick on a body at rest at (5,0,0) leaves the position at
(5,0,0) — the position plus the PRE-step (zero) velocity — even though the
just-updated velocity is (-0.4,0,0); the claimed
`position_new = position_old + velocity_new * dt` would give (4.96,0,0).
So the position update does use the pre-step velocity in this variant. -/
theorem c2_prestep_velocity_counterexample :
    (W1.onmessage w1RestState (.tick (.fin 0.1))).1.bodies.map W1.Body.position
      ≠ List.zipWith (fun old new => vec3.add old.position (vec3.scale new.velocity (.fin 0.1)))
          w1RestState.bodies (W1.onmessage w1RestState (.tick (.fin 0.1))).1.bodies
    ∧ (W1.onmessage w1RestState (.tick (.fin 0.1))).1.bodies.map W1.Body.position
      = w1RestState.bodies.map (fun old => vec3.add old.position (vec3.scale old.velocity (.fin 0.1))) := by
  with_unfolding_all decide

/-- Witness for claim C2's amended theorem: the hypotheses (both ticks are
accepted and emit an update) hold at the spec's concrete scenario for the
asteroid-belt worker and at the resting body for the basic worker. -/
theorem c2_integration_order_witness :
    (W0.onmessage scenarioState (.tick (.fin 0.1))).1.bodies.map W0.Body.position
      = List.zipWith (fun old new => vec3.add old.position (vec3.scale new.velocity (.fin 0.1)))
          scenarioState.bodies (W0.onmessage scenarioState (.tick (.fin 0.1))).1.bodies
    ∧ (W0.onmessage scenarioState (.tick (.fin 0.1))).1.bodies.map W0.Body.velocity
      = List.zipWith (fun old new =>
            vec3.add old.velocity (vec3.scale (vec3.scale new.force ((1 : JsNum) / old.mass)) (.fin 0.1)))
          scenarioState.bodies (W0.onmessage scenarioState (.tick (.fin 0.1))).1.bodies
    ∧ (W1.onmessage w1RestState (.tick (.fin 0.1))).1.bodies.map W1.Body.position
      = w1RestState.bodies.map (fun old => vec3.add old.position (vec3.scale old.velocity (.fin 0.1))) :=
  c2_integration_order scenarioState w1RestState (.fin 0.1)
    (by with_unfolding_all decide) (by with_unfolding_all decide)

set_option maxRecDepth 4000 in
/-- Claim C3 (code bug).  Evaluation of the asteroid-belt worker at a body
placed exactly at the attractor's position: the repulsion term divides by
the UN-floored squared distance `0`, giving `repulsionMag = +Infinity`, and
scaling the zero direction vector by `-Infinity` makes every force
component `0 * (-∞) = NaN`; the posted update carries NaN positions and
velocities, contradicting the claim that the force stays finite in the
repulsion variant. -/
theorem c3_coincident_nan_eval :
    (W0.accumulate scenarioSun (W0.resetForce coincidentBody)).force = ⟨.nan, .nan, .nan⟩
    ∧ (W0.onmessage coincidentState (.tick (.fin 0.1))).2
        = some [⟨"a", ⟨.nan, .nan, .nan⟩, ⟨.nan, .nan, .nan⟩⟩] := by
  with_unfolding_all decide

/-- Claim C4, amended.  In the repulsion variant, whenever the true
pre-floor squared distance to the attractor is below
`SUN_REPULSION_DISTANCE_SQ = 2.25` the accumulated force is the gravity
term (over the floored `max(distSq, 0.1)`) plus an opposing term of
magnitude `0.05 * bodyMass * (2.25 / distSq)` along the negative attraction
direction, where the repulsion's `distSq` is the TRUE (un-floored) squared
distance — not the floored one the claim names. -/
theorem c4_repulsion_unfloored (sun : Sun) (b : W0.Body)
    (h : JsNum.lt (vec3.lengthSq (vec3.subtract sun.position b.position))
          W0.SUN_REPULSION_DISTANCE_SQ = true) :
    (W0.accumulate sun b).force
      = vec3.add
          (vec3.add b.force
            (vec3.scale (vec3.normalize (vec3.subtract sun.position b.position))
              (G * sun.mass * b.mass
                / JsNum.max (vec3.lengthSq (vec3.subtract sun.position b.position)) (.fin 0.1))))
          (vec3.scale (vec3.normalize (vec3.subtract sun.position b.position))
            (JsNum.neg (W0.SUN_REPULSION_STRENGTH * b.mass
              * (W0.SUN_REPULSION_DISTANCE_SQ
                  / vec3.lengthSq (vec3.subtract sun.position b.position))))) := by
  unfold W0.accumulate
  dsimp only
  split
  · rfl
  · rename_i hno
    exact absurd h hno

set_option maxRecDepth 4000 in
/-- Witness for claim C4's amended theorem at a body at unit distance from
the attractor (squared distance 1, inside the repulsion threshold). -/
theorem c4_repulsion_unfloored_witness :
    (W0.accumulate scenarioSun unitBody).force
      = vec3.add
          (vec3.add unitBody.force
            (vec3.scale (vec3.normalize (vec3.subtract scenarioSun.position unitBody.position))
              (G * scenarioSun.mass * unitBody.mass
                / JsNum.max (vec3.lengthSq (vec3.subtract scenarioSun.position unitBody.position)) (.fin 0.1))))
          (vec3.scale (vec3.normalize (vec3.subtract scenarioSun.position unitBody.position))
            (JsNum.neg (W0.SUN_REPULSION_STRENGTH * unitBody.mass
              * (W0.SUN_REPULSION_DISTANCE_SQ
                  / vec3.lengthSq (vec3.subtract scenarioSun.position unitBody.position))))) :=
  c4_repulsion_unfloored scenarioSun unitBody (by with_unfolding_all decide)

/-! Constructor-level rewrite lemmas for `JsNum`, letting `simp`/`norm_num`
evaluate concrete worker arithmetic stepwise (bottom-up) instead of by one
deep definitional reduction. -/

namespace JsNum

theorem ofNat_eq_fin (n : ℕ) : (OfNat.ofNat n : JsNum) = JsNum.fin (OfNat.ofNat n) := rfl

theorem add_fin_fin (p q : ℚ) : JsNum.fin p + JsNum.fin q = JsNum.fin (p + q) := rfl

theorem sub_fin_fin (p q : ℚ) : JsNum.fin p - JsNum.fin q = JsNum.fin (p - q) := by
  show JsNum.fin (p + -q) = _
  rw [← sub_eq_add_neg]

theorem mul_fin_fin (p q : ℚ) : JsNum.fin p * JsNum.fin q = JsNum.fin (p * q) := rfl

theorem neg_fin (p : ℚ) : JsNum.neg (JsNum.fin p) = JsNum.fin (-p) := rfl

theorem div_fin_fin (p q : ℚ) (h : q ≠ 0) : JsNum.fin p / JsNum.fin q = JsNum.fin (p / q) := by
  show (if q = 0 then (if 0 < p then JsNum.inf else if p < 0 then JsNum.ninf else JsNum.nan)
        else JsNum.fin (p / q)) = JsNum.fin (p / q)
  rw [if_neg h]

theorem lt_fin_fin (p q : ℚ) : JsNum.lt (JsNum.fin p) (JsNum.fin q) = decide (p < q) := rfl

theorem max_fin_fin (p q : ℚ) :
    JsNum.max (JsNum.fin p) (JsNum.fin q) = if p < q then JsNum.fin q else JsNum.fin p := by
  show (if JsNum.lt (JsNum.fin p) (JsNum.fin q) = true then JsNum.fin q else JsNum.fin p) = _
  rw [lt_fin_fin]
  by_cases h : p < q <;> simp [h]

theorem sqrt_inv25 : JsNum.sqrt (JsNum.fin (1/25)) = JsNum.fin (1/5) := by
  with_unfolding_all decide

end JsNum

/-- Accumulated force the asteroid-belt worker puts on `closeBody`: the
gravity term `(-1000, 0, 0)` (floored distance `0.1`) plus the repulsion
term `(45/16, 0, 0)` computed over the un-floored squared distance `1/25`. -/
theorem accumulate_close_force :
    (W0.accumulate scenarioSun closeBody).force = ⟨.fin (-(15955/16)), 0, 0⟩ := by
  simp only [W0.accumulate, scenarioSun, closeBody, vec3.subtract, vec3.lengthSq, vec3.normalize,
    vec3.length, vec3.scale, vec3.add, vec3.create, W0.SUN_REPULSION_DISTANCE_SQ,
    W0.SUN_REPULSION_STRENGTH, G, JsNum.ofNat_eq_fin, JsNum.add_fin_fin, JsNum.sub_fin_fin,
    JsNum.mul_fin_fin, JsNum.neg_fin, JsNum.lt_fin_fin, JsNum.max_fin_fin]
  norm_num [JsNum.div_fin_fin, JsNum.sqrt_inv25, JsNum.add_fin_fin, JsNum.sub_fin_fin,
    JsNum.mul_fin_fin, JsNum.neg_fin, JsNum.lt_fin_fin, JsNum.max_fin_fin]

/-- Counterexample to claim C4 as stated.  For a body at (0.2, 0, 0) the
true squared distance is `0.04`, below the floor `0.1`: the code's
accumulated force is `(-1000 + 45/16, 0, 0)` (repulsion over the un-floored
`0.04`), which differs from the claimed formula using the floored
`distSq = 0.1` (that would give `(-1000 + 9/8, 0, 0)`). -/
theorem c4_floored_distsq_counterexample :
    (W0.accumulate scenarioSun closeBody).force = ⟨.fin (-(15955/16)), 0, 0⟩
    ∧ (W0.accumulate scenarioSun closeBody).force
        ≠ vec3.add
            (vec3.add closeBody.force
              (vec3.scale (vec3.normalize (vec3.subtract scenarioSun.position closeBody.position))
                (G * scenarioSun.mass * closeBody.mass
                  / JsNum.max (vec3.lengthSq (vec3.subtract scenarioSun.position closeBody.position)) (.fin 0.1))))
            (vec3.scale (vec3.normalize (vec3.subtract scenarioSun.position closeBody.position))
              (JsNum.neg (W0.SUN_REPULSION_STRENGTH * closeBody.mass
                * (W0.SUN_REPULSION_DISTANCE_SQ
                    / JsNum.max (vec3.lengthSq (vec3.subtract scenarioSun.position closeBody.position)) (.fin 0.1))))) := by
  refine ⟨accumulate_close_force, ?_⟩
  rw [accumulate_close_force]
  simp only [scenarioSun, closeBody, vec3.subtract, vec3.lengthSq, vec3.normalize,
    vec3.length, vec3.scale, vec3.add, vec3.create, W0.SUN_REPULSION_DISTANCE_SQ,
    W0.SUN_REPULSION_STRENGTH, G, JsNum.ofNat_eq_fin, JsNum.add_fin_fin, JsNum.sub_fin_fin,
    JsNum.mul_fin_fin, JsNum.neg_fin, JsNum.lt_fin_fin, JsNum.max_fin_fin]
  norm_num [JsNum.div_fin_fin, JsNum.sqrt_inv25, JsNum.add_fin_fin, JsNum.sub_fin_fin,
    JsNum.mul_fin_fin, JsNum.neg_fin, JsNum.lt_fin_fin, JsNum.max_fin_fin]

/-- Claim C5, amended.  Both workers' ticks leave the state unchanged and
emit no update whenever the attractor is unset, the body list is empty, or
`dt` is FALSY (`0` or `NaN`); in particular a tick with `dt = 0` is an
identity on every body's position and velocity.  (A negative `dt` is not
rejected — see the counterexample.) -/
theorem c5_tick_guard (s0 : W0.State) (s1 : W1.State) (dt : JsNum)
    (h0 : s0.sun = none ∨ s0.bodies = [] ∨ dt = .fin 0 ∨ dt = .nan)
    (h1 : s1.sun = none ∨ s1.bodies = [] ∨ dt = .fin 0 ∨ dt = .nan) :
    W0.onmessage s0 (.tick dt) = (s0, none) ∧ W1.onmessage s1 (.tick dt) = (s1, none) := by
  constructor
  · obtain ⟨bodies, sun⟩ := s0
    rcases h0 with h | h | h | h
    · rw [show sun = none from h]
      rfl
    · rw [show bodies = ([] : List W0.Body) from h]
      cases sun with
      | none => rfl
      | some sun => exact W0.tick_guard [] sun dt rfl
    · subst h
      cases sun with
      | none => rfl
      | some sun =>
        apply W0.tick_guard
        cases bodies <;> rfl
    · subst h
      cases sun with
      | none => rfl
      | some sun =>
        apply W0.tick_guard
        cases bodies <;> rfl
  · obtain ⟨bodies, sun⟩ := s1
    rcases h1 with h | h | h | h
    · rw [show sun = none from h]
      rfl
    · rw [show bodies = ([] : List W1.Body) from h]
      cases sun with
      | none => rfl
      | some sun => exact W1.tick_guard_p1 [] sun dt rfl
    · subst h
      cases sun with
      | none => rfl
      | some sun =>
        apply W1.tick_guard_p1
        cases bodies <;> rfl
    · subst h
      cases sun with
      | none => rfl
      | some sun =>
        apply W1.tick_guard_p1
        cases bodies <;> rfl

/-- Witness for claim C5's amended theorem at the freshly created states
with `dt = 0`. -/
theorem c5_tick_guard_witness :
    W0.onmessage W0.initialState (.tick (.fin 0)) = (W0.initialState, none)
    ∧ W1.onmessage W1.initialState (.tick (.fin 0)) = (W1.initialState, none) :=
  c5_tick_guard W0.initialState W1.initialState (.fin 0) (Or.inl rfl) (Or.inl rfl)

set_option maxRecDepth 4000 in
/-- Counterexample to claim C5 as stated: `dt = -1` is non-positive but
truthy, so the guard does not fire — the tick runs, emits an update, and
changes the state. -/
theorem c5_negative_dt_counterexample :
    (W0.onmessage scenarioState (.tick (.fin (-1)))).2 ≠ none
    ∧ (W0.onmessage scenarioState (.tick (.fin (-1)))).1 ≠ scenarioState := by
  with_unfolding_all decide

set_option maxRecDepth 4000 in
/-- Claim C6, amended.  Initialize performs NO validation: for any prior
state it unconditionally replaces the stored bodies and attractor with the
payload (zeroing each body's force accumulator in the asteroid-belt
variant, storing the list as-is in the basic variant), and signals nothing.
In particular a body with mass 0 is accepted, and the next tick divides by
the zero mass and propagates NaN into the posted update. -/
theorem c6_init_accepts_all :
    (∀ (s : W0.State) (bs : List W0.Body) (sn : Option Sun),
        W0.onmessage s (.init bs sn)
          = ({ bodies := bs.map fun b => { b with force := vec3.create }, sun := sn }, none))
    ∧ (∀ (t : W1.State) (ps : List W1.Body) (sn : Option Sun),
        W1.onmessage t (.init ps sn) = ({ bodies := ps, sun := sn }, none))
    ∧ (W0.onmessage (W0.onmessage W0.initialState (.init [masslessBody] (some scenarioSun))).1
          (.tick (.fin 0.1))).2
        = some [⟨"m", ⟨.nan, .nan, .nan⟩, ⟨.nan, .nan, .nan⟩⟩] :=
  ⟨fun _ _ _ => rfl, fun _ _ _ => rfl, by with_unfolding_all decide⟩

set_option maxRecDepth 4000 in
/-- Counterexample to claim C6 as stated: `init` with an empty body list
and an absent attractor is neither a no-op (the previously initialized
state is replaced by the malformed payload) nor an error (the handler
posts nothing and has no error channel at all). -/
theorem c6_reject_counterexample :
    (W0.onmessage scenarioState (.init [] none)).1 ≠ scenarioState
    ∧ W0.onmessage scenarioState (.init [] none) = (W0.initialState, none) := by
  with_unfolding_all decide

/-- Claim C7 (confirmed).  For either worker: after `init` from the fresh
state and any number of ticks, an accepted tick posts an update whose
entries' ids are exactly the ids of the bodies supplied at init, in the
same order (hence exactly one entry per initialized body). -/
theorem c7_update_ids_match_init (bs : List W0.Body) (sn : Option Sun)
    (dts : List JsNum) (dt : JsNum) (u : List UpdateEntry)
    (ps : List W1.Body) (sn1 : Option Sun) (dts1 : List JsNum) (dt1 : JsNum) (u1 : List UpdateEntry)
    (h : (W0.onmessage (W0.runTicks (W0.onmessage W0.initialState (.init bs sn)).1 dts)
            (.tick dt)).2 = some u)
    (h1 : (W1.onmessage (W1.runTicks (W1.onmessage W1.initialState (.init ps sn1)).1 dts1)
            (.tick dt1)).2 = some u1) :
    u.map UpdateEntry.id = bs.map W0.Body.id
    ∧ u1.map UpdateEntry.id = ps.map W1.Body.id := by
  constructor
  · rw [W0.tick_update_ids _ _ _ h, W0.runTicks_ids]
    show (bs.map fun b => { b with force := vec3.create }).map W0.Body.id = _
    simp only [List.map_map]
    rfl
  · rw [W1.tick_update_ids_p1 _ _ _ h1, W1.runTicks_ids_p1]
    rfl

set_option maxRecDepth 4000 in
/-- Witness for claim C7 at the concrete scenario (no intermediate ticks,
one accepted tick with `dt = 0.1` on each worker). -/
theorem c7_update_ids_match_init_witness :
    tickedUpdate.map UpdateEntry.id = [scenarioBody].map W0.Body.id
    ∧ w1TickedUpdate.map UpdateEntry.id = [restBody].map W1.Body.id :=
  c7_update_ids_match_init [scenarioBody] (some scenarioSun) [] (.fin 0.1) tickedUpdate
    [restBody] (some scenarioSun) [] (.fin 0.1) w1TickedUpdate
    (by with_unfolding_all decide) (by with_unfolding_all decide)

/-- Claim C8 (confirmed).  For every state and every `dt`, a tick of either
worker leaves the attractor (hence its mass, position and velocity) and
every body's id and mass unchanged; only positions, velocities and the
transient force accumulator can change. -/
theorem c8_tick_frame (s : W0.State) (t : W1.State) (dt dt1 : JsNum) :
    (W0.onmessage s (.tick dt)).1.sun = s.sun
    ∧ (W0.onmessage s (.tick dt)).1.bodies.map W0.Body.id = s.bodies.map W0.Body.id
    ∧ (W0.onmessage s (.tick dt)).1.bodies.map W0.Body.mass = s.bodies.map W0.Body.mass
    ∧ (W1.onmessage t (.tick dt1)).1.sun = t.sun
    ∧ (W1.onmessage t (.tick dt1)).1.bodies.map W1.Body.id = t.bodies.map W1.Body.id
    ∧ (W1.onmessage t (.tick dt1)).1.bodies.map W1.Body.mass = t.bodies.map W1.Body.mass :=
  ⟨W0.tick_sun s dt, W0.tick_ids s dt, W0.tick_masses s dt,
   W1.tick_sun_p1 t dt1, W1.tick_ids_p1 t dt1, W1.tick_masses_p1 t dt1⟩

/-- Claim C9 (confirmed).  Calling init twice with the same payload and
then one tick produces exactly the same result (state and update output) as
calling init once and then one tick, from any prior states, for either
worker. -/
theorem c9_init_idempotent (s s1 : W0.State) (bs : List W0.Body) (sn : Option Sun) (dt : JsNum)
    (t t1 : W1.State) (ps : List W1.Body) (sn1 : Option Sun) (dt1 : JsNum) :
    W0.onmessage (W0.onmessage (W0.onmessage s (.init bs sn)).1 (.init bs sn)).1 (.tick dt)
      = W0.onmessage (W0.onmessage s1 (.init bs sn)).1 (.tick dt)
    ∧ W1.onmessage (W1.onmessage (W1.onmessage t (.init ps sn1)).1 (.init ps sn1)).1 (.tick dt1)
      = W1.onmessage (W1.onmessage t1 (.init ps sn1)).1 (.tick dt1) :=
  ⟨rfl, rfl⟩

/-- Claim C10 (confirmed).  Each worker is deterministic: two runs from the
same start state that receive the same message sequence produce equal
output sequences and equal final states (the handler consults nothing
beyond the stored bodies and attractor). -/
theorem c10_deterministic (s : W0.State) (ms : List W0.Msg)
    (os1 os2 : List (Option (List UpdateEntry))) (t1 t2 : W0.State)
    (u : W1.State) (ns : List W1.Msg)
    (qs1 qs2 : List (Option (List UpdateEntry))) (v1 v2 : W1.State)
    (h1 : W0.Reaches s ms os1 t1) (h2 : W0.Reaches s ms os2 t2)
    (g1 : W1.Reaches u ns qs1 v1) (g2 : W1.Reaches u ns qs2 v2) :
    (os1 = os2 ∧ t1 = t2) ∧ (qs1 = qs2 ∧ v1 = v2) :=
  ⟨W0.reaches_det h1 h2, W1.reaches_det_p1 g1 g2⟩

set_option maxRecDepth 4000 in
/-- Witness for claim C10: two identical concrete runs (an init followed by
one tick) of each worker, built constructor-by-constructor, have equal
outputs and final states. -/
theorem c10_deterministic_witness :
    (([none, some tickedUpdate] : List (Option (List UpdateEntry))) = [none, some tickedUpdate]
      ∧ tickedState = tickedState)
    ∧ (([none, some w1TickedUpdate] : List (Option (List UpdateEntry))) = [none, some w1TickedUpdate]
      ∧ w1TickedState = w1TickedState) :=
  c10_deterministic W0.initialState
    [.init [scenarioBody] (some scenarioSun), .tick (.fin 0.1)]
    [none, some tickedUpdate] [none, some tickedUpdate] tickedState tickedState
    W1.initialState [.init [restBody] (some scenarioSun), .tick (.fin 0.1)]
    [none, some w1TickedUpdate] [none, some w1TickedUpdate] w1TickedState w1TickedState
    (W0.Reaches.step (show _ = (scenarioState, none) from by with_unfolding_all decide)
      (W0.Reaches.step (show _ = (tickedState, some tickedUpdate) from by with_unfolding_all decide)
        (W0.Reaches.done tickedState)))
    (W0.Reaches.step (show _ = (scenarioState, none) from by with_unfolding_all decide)
      (W0.Reaches.step (show _ = (tickedState, some tickedUpdate) from by with_unfolding_all decide)
        (W0.Reaches.done tickedState)))
    (W1.Reaches.step (show _ = (w1RestState, none) from by with_unfolding_all decide)
      (W1.Reaches.step (show _ = (w1TickedState, some w1TickedUpdate) from by with_unfolding_all decide)
        (W1.Reaches.done w1TickedState)))
    (W1.Reaches.step (show _ = (w1RestState, none) from by with_unfolding_all decide)
      (W1.Reaches.step (show _ = (w1TickedState, some w1TickedUpdate) from by with_unfolding_all decide)
        (W1.Reaches.done w1TickedState)))
